import Mathlib

/-!
Verification of `site_index_equations.py` (Ecotrust/forest_site_index).

The module is a collection of six pure site-index equations, each mapping a
tree `height` (feet) and breast-height age `bh_age` (years) to an estimated
site index.  Five of them are closed-form arithmetic over floating-point
numbers; we embed those as functions over `ℝ` (with `Real.log`, `Real.exp`,
`Real.logb 10` and real `rpow` standing for `np.log`, `np.exp`, `np.log10`
and the float `**` with a non-integral exponent).  The sixth, `farr1984_ss`,
performs an exact-key lookup in an embedded coefficient table and raises a
`KeyError` carrying the offending age when the key is absent; we embed it
over `ℚ` (table keys and lookups are exact-equality comparisons) with an
`Except ℚ` result whose error value is the offending age.

Vectorized evaluation (numpy broadcasting over equal-length 1-d arrays, and
`pandas.DataFrame.loc` with an array key) is embedded separately on `List ℝ`
with one pointwise combinator per numpy operation.
-/

namespace SiteIndex

/-- Embedding of `king1966_df` (src lines 27-31): Douglas-fir site index,
`4.5 + 2500/((bh_age**2)/((height - 4.5) + 0.954038 - 0.0558178*bh_age
+ 0.000733819*bh_age**2)/(0.109757 + 0.00792236*bh_age
+ 0.000197693*bh_age**2))`, with Python precedence: the numerator chain is
`((bh_age**2 / d1) / d2)`. -/
noncomputable def king1966_df (height bh_age : ℝ) : ℝ :=
  4.5 + 2500 / ((bh_age ^ 2) / ((height - 4.5) + 0.954038 -
    0.0558178 * bh_age + 0.000733819 * bh_age ^ 2) / (0.109757 +
    0.00792236 * bh_age + 0.000197693 * bh_age ^ 2))

/-- Transcription of the King 1966 formula exactly as the specification
writes it (spec section 4.1), to be compared with the code embedding. -/
noncomputable def king1966_spec (height bh_age : ℝ) : ℝ :=
  4.5 + 2500 / (bh_age ^ 2 / ((height - 4.5) + 0.954038 - 0.0558178 * bh_age
    + 0.000733819 * bh_age ^ 2) / (0.109757 + 0.00792236 * bh_age
    + 0.000197693 * bh_age ^ 2))

/-- Embedding of the intermediate term `x1` of `cochran1979_gf`
(src lines 52-54). -/
noncomputable def cochran_x1 (bh_age : ℝ) : ℝ :=
  3.8886 - 1.8017 * Real.log bh_age + 0.2105 * (Real.log bh_age ^ 2) -
    0.0000002885 * (Real.log bh_age ^ 9) + 0.000000000000000001187 *
    (Real.log bh_age ^ 24)

/-- Embedding of the intermediate term `x2` of `cochran1979_gf`
(src lines 56-58). -/
noncomputable def cochran_x2 (bh_age : ℝ) : ℝ :=
  -0.30935 + 1.2383 * Real.log bh_age + 0.001762 * (Real.log bh_age ^ 4) -
    0.0000054 * (Real.log bh_age ^ 9) + 0.0000002046 * (Real.log bh_age ^ 11) -
    0.000000000000404 * (Real.log bh_age ^ 18)

/-- Embedding of `cochran1979_gf` (src lines 34-62): white/grand fir site
index, `(height - 4.5) * exp(x1) - exp(x1) * exp(x2) + 89.43`. -/
noncomputable def cochran1979_gf (height bh_age : ℝ) : ℝ :=
  (height - 4.5) * Real.exp (cochran_x1 bh_age) -
    Real.exp (cochran_x1 bh_age) * Real.exp (cochran_x2 bh_age) + 89.43

/-- Embedding of `wiley1978_wh` (src lines 83-87): western hemlock site
index. -/
noncomputable def wiley1978_wh (height bh_age : ℝ) : ℝ :=
  2500 * ((height - 4.5) * (0.1394 + 0.0137 * bh_age + 0.00007 * bh_age ^ 2) /
    (bh_age ^ 2 - (height - 4.5) * (-1.7307 - 0.0616 * bh_age +
      0.00192 * bh_age ^ 2)))

/-- Embedding of the coefficient `a` of `harrington1986_ra` (src line 110),
a cubic polynomial in the adjusted age. -/
noncomputable def harrington_a (age : ℝ) : ℝ :=
  54.1850 - 4.61694 * age + 0.11065 * age ^ 2 - 0.0007633 * age ^ 3

/-- Embedding of the coefficient `b` of `harrington1986_ra` (src line 111),
containing the inverse-cubic term `3.5220 * (1/age)**3`. -/
noncomputable def harrington_b (age : ℝ) : ℝ :=
  1.25934 - 0.012989 * age + 3.5220 * (1 / age) ^ 3

/-- Embedding of `harrington1986_ra` (src lines 108-115): red alder site
index; the input breast-height age is first corrected to total age
`age = bh_age + 1`, then `site_index = a + b * height`. -/
noncomputable def harrington1986_ra (height bh_age : ℝ) : ℝ :=
  harrington_a (bh_age + 1) + harrington_b (bh_age + 1) * height

/-- Embedding of `curtis1974_df` (src lines 218-229): high-elevation
Douglas-fir site index.  The source computes `a` and `b` each with
`np.where(bh_age <= 100, low, high)`; for a scalar input this selects the
low branch exactly when `bh_age <= 100`. -/
noncomputable def curtis1974_df (height bh_age : ℝ) : ℝ :=
  (if bh_age ≤ 100 then 0.010006 * (100 - bh_age) ^ 2
   else 7.66772 * Real.exp (0.95 * (100 / bh_age - 100) ^ 2)) +
  (if bh_age ≤ 100 then
      1.0 + 0.00549779 * (100 - bh_age) + 1.46842e-14 * (100 - bh_age) ^ 7
   else 1.0 - 0.730948 * (Real.logb 10 bh_age - 2.0) ^ (0.80 : ℝ)) *
  (height - 4.5) + 4.5

/-- Transcription of the Curtis 1974 piecewise formula exactly as the
specification writes it (spec section 4.6): one branch on the age, then
`site_index = a + b * (height - 4.5) + 4.5` in both branches. -/
noncomputable def curtis1974_spec (height bh_age : ℝ) : ℝ :=
  if bh_age ≤ 100 then
    0.010006 * (100 - bh_age) ^ 2 +
      (1.0 + 0.00549779 * (100 - bh_age) + 1.46842e-14 * (100 - bh_age) ^ 7) *
      (height - 4.5) + 4.5
  else
    7.66772 * Real.exp (0.95 * (100 / bh_age - 100) ^ 2) +
      (1.0 - 0.730948 * (Real.logb 10 bh_age - 2.0) ^ (0.80 : ℝ)) *
      (height - 4.5) + 4.5

/-- Embedding of the age column of the Farr 1984 coefficient table (src lines 138-148). -/
def AGE_LOOKUP : List ℚ :=
  [10, 11, 12, 13, 14, 15, 16, 17, 18, 19, 20, 21, 22, 23, 24, 25, 26, 27,
   28, 29, 30, 31, 32, 33, 34, 35, 36, 37, 38, 39, 40, 41, 42, 43, 44, 45,
   46, 47, 48, 49, 50, 51, 52, 53, 54, 55, 56, 57, 58, 59, 60, 61, 62, 63,
   64, 65, 66, 67, 68, 69, 70, 71, 72, 73, 74, 75, 76, 77, 78, 79, 80, 81,
   82, 83, 84, 85, 86, 87, 88, 89, 90, 91, 92, 93, 94, 95, 96, 97, 98, 99,
   100, 101, 102, 103, 104, 105, 106, 107, 108, 109, 110, 111, 112, 113, 114,
   115, 116, 117, 118, 119, 120, 121, 122, 123, 124, 125, 126, 127, 128, 129,
   130, 131, 132, 133, 134, 135, 136, 137, 138, 139, 140, 141, 142, 143, 144,
   145, 146, 147, 148, 149, 150]

/-- Embedding of the `a2` column of the Farr 1984 coefficient table (src lines 150-168). -/
def A2_LOOKUP : List ℚ :=
  [43.22, 42.069, 40.753, 39.327, 37.827, 36.279, 34.705, 33.12, 31.536,
   29.963, 28.408, 26.879, 25.38, 23.914, 22.486, 21.098, 19.751, 18.448,
   17.189, 15.975, 14.806, 13.682, 12.603, 11.569, 10.58, 9.634, 8.731, 7.87,
   7.05, 6.271, 5.53, 4.826, 4.16, 3.529, 2.932, 2.368, 1.836, 1.334, 0.862,
   0.418, 0, -0.391, -0.758, -1.102, -1.423, -1.723, -2.003, -2.264, -2.507,
   -2.732, -2.942, -3.136, -3.316, -3.482, -3.635, -3.777, -3.908, -4.028,
   -4.138, -4.239, -4.332, -4.418, -4.496, -4.567, -4.633, -4.692, -4.747,
   -4.798, -4.844, -4.886, -4.925, -4.961, -4.995, -5.026, -5.056, -5.083,
   -5.11, -5.135, -5.159, -5.182, -5.205, -5.228, -5.25, -5.273, -5.295,
   -5.318, -5.341, -5.364, -5.388, -5.412, -5.437, -5.463, -5.489, -5.515,
   -5.543, -5.57, -5.598, -5.627, -5.656, -5.685, -5.714, -5.743, -5.772,
   -5.801, -5.83, -5.858, -5.885, -5.912, -5.937, -5.961, -5.984, -6.005,
   -6.024, -6.041, -6.055, -6.067, -6.075, -6.081, -6.082, -6.08, -6.073,
   -6.062, -6.046, -6.024, -5.997, -5.964, -5.925, -5.878, -5.825, -5.764,
   -5.694, -5.617, -5.53, -5.435, -5.329, -5.213, -5.087, -4.95, -4.801,
   -4.64, -4.467]

/-- Embedding of the `b2` column of the Farr 1984 coefficient table (src lines 170-186). -/
def B2_LOOKUP : List ℚ :=
  [2.33, 2.143, 1.998, 1.884, 1.792, 1.716, 1.652, 1.598, 1.551, 1.51, 1.474,
   1.441, 1.412, 1.385, 1.36, 1.338, 1.316, 1.296, 1.278, 1.26, 1.243, 1.227,
   1.211, 1.197, 1.182, 1.169, 1.155, 1.142, 1.13, 1.117, 1.105, 1.094,
   1.082, 1.071, 1.06, 1.05, 1.039, 1.029, 1.019, 1.01, 1, 0.991, 0.982,
   0.973, 0.964, 0.955, 0.947, 0.939, 0.93, 0.923, 0.916, 0.907, 0.9, 0.893,
   0.885, 0.878, 0.872, 0.865, 0.858, 0.852, 0.846, 0.84, 0.834, 0.828,
   0.822, 0.817, 0.811, 0.806, 0.801, 0.796, 0.791, 0.786, 0.781, 0.777,
   0.772, 0.768, 0.764, 0.76, 0.756, 0.752, 0.748, 0.744, 0.741, 0.737,
   0.734, 0.73, 0.727, 0.724, 0.721, 0.718, 0.715, 0.712, 0.709, 0.707,
   0.704, 0.702, 0.699, 0.697, 0.694, 0.692, 0.69, 0.688, 0.686, 0.684,
   0.682, 0.68, 0.678, 0.676, 0.674, 0.672, 0.671, 0.669, 0.667, 0.665,
   0.664, 0.662, 0.661, 0.659, 0.657, 0.656, 0.654, 0.653, 0.651, 0.65,
   0.648, 0.647, 0.645, 0.643, 0.642, 0.64, 0.639, 0.637, 0.635, 0.634,
   0.632, 0.63, 0.628, 0.626, 0.624, 0.622, 0.62]

/-- Embedding of the coefficient table built at src lines 188-191: the
`DataFrame` zips the three columns and indexes rows by age, which is the
association list of `(age, a2, b2)` triples in column order. -/
def farrTable : List (ℚ × ℚ × ℚ) :=
  AGE_LOOKUP.zip (A2_LOOKUP.zip B2_LOOKUP)

/-- Embedding of `coefs.loc[bh_age].values` for a scalar age (src line 193):
an exact-key row lookup returning the `(a2, b2)` pair, or nothing when the
age is not a key of the table (pandas raises `KeyError` in that case). -/
def farrLookup (bh_age : ℚ) : Option (ℚ × ℚ) :=
  (farrTable.find? (fun p => decide (p.1 = bh_age))).map (fun p => p.2)

/-- Embedding of `farr1984_ss` (src lines 118-197) on scalar input: look up
`(a2, b2)` for the exact age and return `4.5 + a2 + b2 * (height - 4.5)`;
a failed lookup is the uncaught `KeyError` carrying the offending age. -/
def farr1984_ss (height bh_age : ℚ) : Except ℚ ℚ :=
  match farrLookup bh_age with
  | some (a2, b2) => .ok (4.5 + a2 + b2 * (height - 4.5))
  | none => .error bh_age

/-- Embedding of `farr1984_ss` called on two-element vectors.  With an array
age key, `coefs.loc[bh_age].values` (src line 193) is the 2x2 matrix whose
ROWS are the table rows `(a2(t1), b2(t1))` and `(a2(t2), b2(t2))`; the
Python unpacking `a2, b2 = ...` then binds `a2` to the first ROW and `b2`
to the second ROW (not to the two columns), so the broadcast
`4.5 + a2 + b2 * (height - 4.5)` at src line 195 mixes coefficients across
ages.  A missing key raises `KeyError` as in the scalar case. -/
def farr1984_vec2 (height bh_age : ℚ × ℚ) : Except ℚ (ℚ × ℚ) :=
  match farrLookup bh_age.1, farrLookup bh_age.2 with
  | some r1, some r2 =>
      .ok (4.5 + r1.1 + r2.1 * (height.1 - 4.5),
           4.5 + r1.2 + r2.2 * (height.2 - 4.5))
  | none, _ => .error bh_age.1
  | _, none => .error bh_age.2

/-- IEEE-754-style value domain used to model numpy double arithmetic where
non-finite propagation matters: a finite value is an exact rational (the
sign of zero is not modelled), plus the two infinities and NaN. -/
inductive FVal where
  | fin : ℚ → FVal
  | pinf : FVal
  | ninf : FVal
  | nan : FVal
deriving DecidableEq

/-- Truth of being a finite float value. -/
def FVal.isFinite : FVal → Bool
  | .fin _ => true
  | _ => false

/-- Negation on the float domain. -/
def FVal.neg : FVal → FVal
  | .fin q => .fin (-q)
  | .pinf => .ninf
  | .ninf => .pinf
  | .nan => .nan

/-- Addition with IEEE semantics: NaN propagates, opposite infinities give
NaN, an infinity absorbs finite values. -/
def FVal.add : FVal → FVal → FVal
  | .nan, _ => .nan
  | _, .nan => .nan
  | .fin a, .fin b => .fin (a + b)
  | .pinf, .ninf => .nan
  | .ninf, .pinf => .nan
  | .pinf, _ => .pinf
  | _, .pinf => .pinf
  | .ninf, _ => .ninf
  | _, .ninf => .ninf

/-- Subtraction on the float domain. -/
def FVal.sub (x y : FVal) : FVal := x.add y.neg

/-- Multiplication with IEEE semantics: NaN propagates, infinity times zero
is NaN, otherwise infinities keep the product's sign. -/
def FVal.mul : FVal → FVal → FVal
  | .nan, _ => .nan
  | _, .nan => .nan
  | .fin a, .fin b => .fin (a * b)
  | .pinf, .pinf => .pinf
  | .pinf, .ninf => .ninf
  | .ninf, .pinf => .ninf
  | .ninf, .ninf => .pinf
  | .pinf, .fin b => if b = 0 then .nan else if 0 < b then .pinf else .ninf
  | .fin a, .pinf => if a = 0 then .nan else if 0 < a then .pinf else .ninf
  | .ninf, .fin b => if b = 0 then .nan else if 0 < b then .ninf else .pinf
  | .fin a, .ninf => if a = 0 then .nan else if 0 < a then .ninf else .pinf

/-- Division with IEEE semantics (positive zero only): `0/0` is NaN, a
nonzero finite over zero is a signed infinity (numpy emits a warning but
returns the value), finite over infinity is zero, infinity over infinity
is NaN. -/
def FVal.div : FVal → FVal → FVal
  | .nan, _ => .nan
  | _, .nan => .nan
  | .fin a, .fin b =>
      if b = 0 then (if a = 0 then .nan else if 0 < a then .pinf else .ninf)
      else .fin (a / b)
  | .fin _, .pinf => .fin 0
  | .fin _, .ninf => .fin 0
  | .pinf, .fin b => if 0 ≤ b then .pinf else .ninf
  | .ninf, .fin b => if 0 ≤ b then .ninf else .pinf
  | .pinf, _ => .nan
  | .ninf, _ => .nan

/-- Natural-number power on the float domain (`x ** 2` on floats); the zero
exponent gives 1 even for NaN, matching numpy. -/
def FVal.pow (x : FVal) : ℕ → FVal
  | 0 => .fin 1
  | n + 1 => (FVal.pow x n).mul x

/-- Embedding of `king1966_df` over the float domain, with the same
expression tree as src lines 27-31, used to track non-finite propagation at
degenerate inputs. -/
def king1966_float (height bh_age : FVal) : FVal :=
  (FVal.fin 4.5).add ((FVal.fin 2500).div
    (((bh_age.pow 2).div
        ((((height.sub (.fin 4.5)).add (.fin 0.954038)).sub
            ((FVal.fin 0.0558178).mul bh_age)).add
          ((FVal.fin 0.000733819).mul (bh_age.pow 2)))).div
      (((FVal.fin 0.109757).add ((FVal.fin 0.00792236).mul bh_age)).add
        ((FVal.fin 0.000197693).mul (bh_age.pow 2)))))

/-- Pointwise sum of two equal-length numpy arrays. -/
noncomputable def vadd (xs ys : List ℝ) : List ℝ := List.zipWith (· + ·) xs ys

/-- Pointwise difference of two equal-length numpy arrays. -/
noncomputable def vsub (xs ys : List ℝ) : List ℝ := List.zipWith (· - ·) xs ys

/-- Pointwise product of two equal-length numpy arrays. -/
noncomputable def vmul (xs ys : List ℝ) : List ℝ := List.zipWith (· * ·) xs ys

/-- Pointwise quotient of two equal-length numpy arrays. -/
noncomputable def vdiv (xs ys : List ℝ) : List ℝ := List.zipWith (· / ·) xs ys

/-- Broadcast `array + scalar`. -/
noncomputable def vaddC (xs : List ℝ) (c : ℝ) : List ℝ := xs.map (· + c)

/-- Broadcast `scalar + array`. -/
noncomputable def vCadd (c : ℝ) (xs : List ℝ) : List ℝ := xs.map (c + ·)

/-- Broadcast `array - scalar`. -/
noncomputable def vsubC (xs : List ℝ) (c : ℝ) : List ℝ := xs.map (· - c)

/-- Broadcast `scalar - array`. -/
noncomputable def vCsub (c : ℝ) (xs : List ℝ) : List ℝ := xs.map (c - ·)

/-- Broadcast `scalar * array`. -/
noncomputable def vCmul (c : ℝ) (xs : List ℝ) : List ℝ := xs.map (c * ·)

/-- Broadcast `scalar / array`. -/
noncomputable def vCdiv (c : ℝ) (xs : List ℝ) : List ℝ := xs.map (c / ·)

/-- Pointwise `array ** n` for a natural exponent. -/
noncomputable def vpow (xs : List ℝ) (n : ℕ) : List ℝ := xs.map (· ^ n)

/-- Pointwise `np.exp`. -/
noncomputable def vexp (xs : List ℝ) : List ℝ := xs.map Real.exp

/-- Pointwise `np.log`. -/
noncomputable def vlog (xs : List ℝ) : List ℝ := xs.map Real.log

/-- Pointwise `np.log10`. -/
noncomputable def vlog10 (xs : List ℝ) : List ℝ := xs.map (Real.logb 10)

/-- Pointwise `array ** c` for a real exponent (real power). -/
noncomputable def vrpowC (xs : List ℝ) (c : ℝ) : List ℝ := xs.map (· ^ c)

/-- Embedding of `np.where(bh_age <= 100, xs, ys)` over aligned arrays: the
condition is evaluated on each age element independently. -/
noncomputable def vselectLe100 : List ℝ → List ℝ → List ℝ → List ℝ
  | t :: ts, x :: xs, y :: ys =>
      (if t ≤ 100 then x else y) :: vselectLe100 ts xs ys
  | _, _, _ => []

/-- Embedding of `king1966_df` applied to equal-length arrays: every numpy
operation of src lines 27-31 acts pointwise. -/
noncomputable def king1966_vec (height bh_age : List ℝ) : List ℝ :=
  vCadd 4.5 (vCdiv 2500 (vdiv (vdiv (vpow bh_age 2)
    (vadd (vsub (vaddC (vsubC height 4.5) 0.954038) (vCmul 0.0558178 bh_age))
      (vCmul 0.000733819 (vpow bh_age 2))))
    (vadd (vCadd 0.109757 (vCmul 0.00792236 bh_age))
      (vCmul 0.000197693 (vpow bh_age 2)))))

/-- Embedding of `cochran1979_gf` applied to equal-length arrays
(src lines 52-60), with each numpy operation acting pointwise. -/
noncomputable def cochran1979_vec (height bh_age : List ℝ) : List ℝ :=
  vaddC
    (vsub
      (vmul (vsubC height 4.5)
        (vexp (vadd (vsub (vadd (vCsub 3.8886 (vCmul 1.8017 (vlog bh_age)))
            (vCmul 0.2105 (vpow (vlog bh_age) 2)))
          (vCmul 0.0000002885 (vpow (vlog bh_age) 9)))
          (vCmul 0.000000000000000001187 (vpow (vlog bh_age) 24)))))
      (vmul
        (vexp (vadd (vsub (vadd (vCsub 3.8886 (vCmul 1.8017 (vlog bh_age)))
            (vCmul 0.2105 (vpow (vlog bh_age) 2)))
          (vCmul 0.0000002885 (vpow (vlog bh_age) 9)))
          (vCmul 0.000000000000000001187 (vpow (vlog bh_age) 24))))
        (vexp (vsub (vadd (vsub (vadd (vCadd (-0.30935)
            (vCmul 1.2383 (vlog bh_age)))
          (vCmul 0.001762 (vpow (vlog bh_age) 4)))
          (vCmul 0.0000054 (vpow (vlog bh_age) 9)))
          (vCmul 0.0000002046 (vpow (vlog bh_age) 11)))
          (vCmul 0.000000000000404 (vpow (vlog bh_age) 18))))))
    89.43

/-- Embedding of `wiley1978_wh` applied to equal-length arrays
(src lines 83-87), with each numpy operation acting pointwise. -/
noncomputable def wiley1978_vec (height bh_age : List ℝ) : List ℝ :=
  vCmul 2500 (vdiv
    (vmul (vsubC height 4.5)
      (vadd (vCadd 0.1394 (vCmul 0.0137 bh_age))
        (vCmul 0.00007 (vpow bh_age 2))))
    (vsub (vpow bh_age 2)
      (vmul (vsubC height 4.5)
        (vadd (vCsub (-1.7307) (vCmul 0.0616 bh_age))
          (vCmul 0.00192 (vpow bh_age 2))))))

/-- Embedding of `harrington1986_ra` applied to equal-length arrays
(src lines 108-115), with each numpy operation acting pointwise. -/
noncomputable def harrington1986_vec (height bh_age : List ℝ) : List ℝ :=
  vadd
    (vsub (vadd (vCsub 54.1850 (vCmul 4.61694 (vaddC bh_age 1)))
      (vCmul 0.11065 (vpow (vaddC bh_age 1) 2)))
      (vCmul 0.0007633 (vpow (vaddC bh_age 1) 3)))
    (vmul
      (vadd (vCsub 1.25934 (vCmul 0.012989 (vaddC bh_age 1)))
        (vCmul 3.5220 (vpow (vCdiv 1 (vaddC bh_age 1)) 3)))
      height)

/-- Embedding of `curtis1974_df` applied to equal-length arrays
(src lines 218-229): `np.where` selects a branch for each age element
independently, after computing both branch arrays pointwise. -/
noncomputable def curtis1974_vec (height bh_age : List ℝ) : List ℝ :=
  vaddC
    (vadd
      (vselectLe100 bh_age
        (vCmul 0.010006 (vpow (vCsub 100 bh_age) 2))
        (vCmul 7.66772 (vexp (vCmul 0.95
          (vpow (vsubC (vCdiv 100 bh_age) 100) 2)))))
      (vmul
        (vselectLe100 bh_age
          (vadd (vCadd 1.0 (vCmul 0.00549779 (vCsub 100 bh_age)))
            (vCmul 1.46842e-14 (vpow (vCsub 100 bh_age) 7)))
          (vCsub 1.0 (vCmul 0.730948
            (vrpowC (vsubC (vlog10 bh_age) 2.0) (0.80 : ℝ)))))
        (vsubC height 4.5)))
    4.5

end SiteIndex

namespace SiteIndex

set_option maxRecDepth 8000

/-- Helper: the age column is the cast of the integer range 10..150. -/
lemma ageKeys_eq :
    AGE_LOOKUP = (List.range' 10 141).map (fun n : ℕ => (n : ℚ)) := by
  decide

/-- Helper: the keys of the coefficient table are the age column. -/
lemma farr_map_fst : farrTable.map Prod.fst = AGE_LOOKUP := by
  have h : AGE_LOOKUP.length ≤ (A2_LOOKUP.zip B2_LOOKUP).length := by decide
  simpa [farrTable] using List.map_fst_zip AGE_LOOKUP (A2_LOOKUP.zip B2_LOOKUP) h

/-- Helper: the age column has no duplicate key. -/
lemma ageKeys_nodup : AGE_LOOKUP.Nodup := by
  rw [ageKeys_eq]
  exact List.Nodup.map Nat.cast_injective (List.nodup_range' 10 141)

/-- Helper: membership in the age column is being an integer in 10..150. -/
lemma mem_ageKeys (t : ℚ) :
    t ∈ AGE_LOOKUP ↔ ∃ n : ℤ, 10 ≤ n ∧ n ≤ 150 ∧ t = (n : ℚ) := by
  rw [ageKeys_eq]
  simp only [List.mem_map, List.mem_range'_1]
  constructor
  · rintro ⟨m, ⟨hm1, hm2⟩, rfl⟩
    refine ⟨(m : ℤ), by exact_mod_cast hm1, ?_, by push_cast; rfl⟩
    have : m ≤ 150 := by omega
    exact_mod_cast this
  · rintro ⟨n, hn1, hn2, rfl⟩
    refine ⟨n.toNat, ⟨by omega, by omega⟩, ?_⟩
    have h : ((n.toNat : ℤ)) = n := Int.toNat_of_nonneg (by omega)
    exact_mod_cast h

/-- Helper: counting occurrences of a key in a duplicate-free list. -/
lemma countP_eq_of_nodup {α : Type} [DecidableEq α] (t : α) :
    ∀ l : List α, l.Nodup →
      l.countP (fun k => decide (k = t)) = if t ∈ l then 1 else 0
  | [], _ => by simp
  | a :: l, hl => by
    rcases List.nodup_cons.mp hl with ⟨ha, hl2⟩
    rw [List.countP_cons, countP_eq_of_nodup t l hl2]
    by_cases hat : a = t
    · subst hat
      simp [ha]
    · simp [hat, List.mem_cons, Ne.symm hat]

/-- Helper: how many rows of the table carry a given age key. -/
lemma farr_filter_len (t : ℚ) :
    (farrTable.filter (fun p => decide (p.1 = t))).length =
      if t ∈ AGE_LOOKUP then 1 else 0 := by
  rw [← List.countP_eq_length_filter]
  have h1 : farrTable.countP (fun p => decide (p.1 = t)) =
      (farrTable.map Prod.fst).countP (fun k => decide (k = t)) := by
    rw [List.countP_map]
    rfl
  rw [h1, farr_map_fst, countP_eq_of_nodup t AGE_LOOKUP ageKeys_nodup]

/-- Helper: `king1966_vec` agrees elementwise with the scalar function. -/
lemma king1966_vec_consistent (hs ts : List ℝ) (h : hs.length = ts.length) :
    king1966_vec hs ts = List.zipWith king1966_df hs ts := by
  apply List.ext_getElem
  · simp [king1966_vec, vCadd, vCdiv, vdiv, vpow, vadd, vsub, vaddC, vsubC,
      vCmul, h]
  · intro i h1 h2
    simp [king1966_vec, vCadd, vCdiv, vdiv, vpow, vadd, vsub, vaddC, vsubC,
      vCmul, king1966_df]

/-- Helper: `cochran1979_vec` agrees elementwise with the scalar function. -/
lemma cochran1979_vec_consistent (hs ts : List ℝ) (h : hs.length = ts.length) :
    cochran1979_vec hs ts = List.zipWith cochran1979_gf hs ts := by
  apply List.ext_getElem
  · simp [cochran1979_vec, vaddC, vsub, vmul, vsubC, vexp, vadd, vCsub, vCmul,
      vpow, vlog, vCadd, h]
  · intro i h1 h2
    simp [cochran1979_vec, vaddC, vsub, vmul, vsubC, vexp, vadd, vCsub, vCmul,
      vpow, vlog, vCadd, cochran1979_gf, cochran_x1, cochran_x2]

/-- Helper: `wiley1978_vec` agrees elementwise with the scalar function. -/
lemma wiley1978_vec_consistent (hs ts : List ℝ) (h : hs.length = ts.length) :
    wiley1978_vec hs ts = List.zipWith wiley1978_wh hs ts := by
  apply List.ext_getElem
  · simp only [wiley1978_vec]
    simp only [vsub]
    simp only [vCmul, vdiv, vmul, vsubC, vadd, vCadd, vpow, vCsub,
      List.length_map, List.length_zipWith, h]
    omega
  · intro i h1 h2
    simp only [wiley1978_vec]
    simp only [vsub]
    simp only [vCmul, vdiv, vmul, vsubC, vadd, vCadd, vpow, vCsub,
      List.getElem_map, List.getElem_zipWith, wiley1978_wh]

/-- Helper: `harrington1986_vec` agrees elementwise with the scalar
function. -/
lemma harrington1986_vec_consistent (hs ts : List ℝ)
    (h : hs.length = ts.length) :
    harrington1986_vec hs ts = List.zipWith harrington1986_ra hs ts := by
  apply List.ext_getElem
  · simp [harrington1986_vec, vadd, vsub, vCsub, vCmul, vaddC, vpow, vCdiv,
      vmul, h]
  · intro i h1 h2
    simp [harrington1986_vec, vadd, vsub, vCsub, vCmul, vaddC, vpow, vCdiv,
      vmul, harrington1986_ra, harrington_a, harrington_b]

/-- Helper: `curtis1974_vec` agrees elementwise with the scalar function;
the `np.where` branch is selected for each age element independently. -/
lemma curtis1974_vec_consistent : ∀ (hs ts : List ℝ), hs.length = ts.length →
    curtis1974_vec hs ts = List.zipWith curtis1974_df hs ts
  | [], [], _ => rfl
  | [], t :: ts, h => by simp at h
  | x :: xs, [], h => by simp at h
  | x :: xs, y :: ys, h => by
    have ih := curtis1974_vec_consistent xs ys (by simpa using h)
    simp only [curtis1974_vec, vaddC, vadd, vmul, vCmul, vCadd, vCsub, vsubC,
      vCdiv, vpow, vexp, vlog10, vrpowC, List.map_cons,
      List.zipWith_cons_cons, vselectLe100] at ih ⊢
    rw [ih]
    simp [curtis1974_df]

/-- Claim C1: the five closed-form equations are total (they return a value
for every real input, raising no exception), and `king1966_df` evaluated
with `bh_age = 0` under float semantics propagates a non-finite value
(positive infinity in general, NaN when the height also zeroes the inner
denominator) instead of raising. -/
theorem nonfarr_total_and_king_nonfinite_at_zero_age :
    (∀ q : ℚ, (king1966_float (.fin q) (.fin 0)).isFinite = false) ∧
    (∀ height bh_age : ℝ, ∃ y : ℝ, king1966_df height bh_age = y) ∧
    (∀ height bh_age : ℝ, ∃ y : ℝ, cochran1979_gf height bh_age = y) ∧
    (∀ height bh_age : ℝ, ∃ y : ℝ, wiley1978_wh height bh_age = y) ∧
    (∀ height bh_age : ℝ, ∃ y : ℝ, harrington1986_ra height bh_age = y) ∧
    (∀ height bh_age : ℝ, ∃ y : ℝ, curtis1974_df height bh_age = y) := by
  refine ⟨?_, fun a b => ⟨_, rfl⟩, fun a b => ⟨_, rfl⟩, fun a b => ⟨_, rfl⟩,
    fun a b => ⟨_, rfl⟩, fun a b => ⟨_, rfl⟩⟩
  intro q
  unfold king1966_float
  simp only [FVal.pow, FVal.mul, FVal.sub, FVal.neg, FVal.add]
  norm_num
  by_cases h1 : q + -(9/2) + 477019/500000 = 0
  · simp [FVal.div, FVal.isFinite, h1]
  · norm_num [FVal.div, FVal.isFinite, h1]

/-- Claim C2, counterexample: calling `farr1984_ss` once on the two-element
vectors `height = (10, 10)`, `bh_age = (10, 11)` does not agree with the two
scalar calls: the vectorized result mixes the `a2` coefficients of ages 10
and 11 into the first component (row-unpacking of the lookup matrix),
while the scalar calls pair each age's own `(a2, b2)`. -/
theorem farr1984_vec2_not_elementwise :
    farr1984_ss 10 10 = Except.ok (4.5 + 43.22 + 2.33 * (10 - 4.5)) ∧
    farr1984_ss 10 11 = Except.ok (4.5 + 42.069 + 2.143 * (10 - 4.5)) ∧
    farr1984_vec2 (10, 10) (10, 11) =
      Except.ok (4.5 + 43.22 + 42.069 * (10 - 4.5),
                 4.5 + 2.33 + 2.143 * (10 - 4.5)) ∧
    (4.5 + 43.22 + 42.069 * ((10 : ℚ) - 4.5), 4.5 + 2.33 + 2.143 * ((10 : ℚ) - 4.5)) ≠
      (4.5 + 43.22 + 2.33 * ((10 : ℚ) - 4.5), 4.5 + 42.069 + 2.143 * ((10 : ℚ) - 4.5)) := by
  refine ⟨rfl, rfl, rfl, ?_⟩
  intro hpair
  have h1 := congrArg Prod.fst hpair
  norm_num at h1

/-- Claim C2, amended: the five closed-form functions are shape invariant
(one call on equal-length vectors equals the elementwise scalar calls, with
the `curtis1974_df` branch selected per element), but `farr1984_ss` is not:
on two-element vectors its result unpacks the lookup matrix by rows, so
component 1 uses the `a2` coefficients of both ages and component 2 the
`b2` coefficients of both ages, instead of each age's own pair. -/
theorem vectorization_consistency_amended :
    (∀ hs ts : List ℝ, hs.length = ts.length →
        king1966_vec hs ts = List.zipWith king1966_df hs ts) ∧
    (∀ hs ts : List ℝ, hs.length = ts.length →
        cochran1979_vec hs ts = List.zipWith cochran1979_gf hs ts) ∧
    (∀ hs ts : List ℝ, hs.length = ts.length →
        wiley1978_vec hs ts = List.zipWith wiley1978_wh hs ts) ∧
    (∀ hs ts : List ℝ, hs.length = ts.length →
        harrington1986_vec hs ts = List.zipWith harrington1986_ra hs ts) ∧
    (∀ hs ts : List ℝ, hs.length = ts.length →
        curtis1974_vec hs ts = List.zipWith curtis1974_df hs ts) ∧
    (∀ hq1 hq2 t1 t2 a1 b1 a2 b2 : ℚ,
        farrLookup t1 = some (a1, b1) → farrLookup t2 = some (a2, b2) →
        farr1984_vec2 (hq1, hq2) (t1, t2) =
          Except.ok (4.5 + a1 + a2 * (hq1 - 4.5), 4.5 + b1 + b2 * (hq2 - 4.5))) := by
  refine ⟨king1966_vec_consistent, cochran1979_vec_consistent,
    wiley1978_vec_consistent, harrington1986_vec_consistent,
    curtis1974_vec_consistent, ?_⟩
  intro hq1 hq2 t1 t2 a1 b1 a2 b2 hl1 hl2
  simp [farr1984_vec2, hl1, hl2]

/-- Witness for the amended claim C2, at one-element vectors `height = 100`,
`bh_age = 50` for the five closed-form functions and at ages 10 and 11 for
the Farr two-element case. -/
theorem vectorization_consistency_amended_witness :
    king1966_vec [100] [50] = List.zipWith king1966_df [100] [50] ∧
    cochran1979_vec [100] [50] = List.zipWith cochran1979_gf [100] [50] ∧
    wiley1978_vec [100] [50] = List.zipWith wiley1978_wh [100] [50] ∧
    harrington1986_vec [60] [20] = List.zipWith harrington1986_ra [60] [20] ∧
    curtis1974_vec [100] [50] = List.zipWith curtis1974_df [100] [50] ∧
    farr1984_vec2 (10, 10) (10, 11) =
      Except.ok (4.5 + 43.22 + 42.069 * ((10 : ℚ) - 4.5),
                 4.5 + 2.33 + 2.143 * ((10 : ℚ) - 4.5)) :=
  ⟨vectorization_consistency_amended.1 [100] [50] rfl,
   vectorization_consistency_amended.2.1 [100] [50] rfl,
   vectorization_consistency_amended.2.2.1 [100] [50] rfl,
   vectorization_consistency_amended.2.2.2.1 [60] [20] rfl,
   vectorization_consistency_amended.2.2.2.2.1 [100] [50] rfl,
   vectorization_consistency_amended.2.2.2.2.2 10 10 10 11 43.22 2.33
     42.069 2.143 rfl rfl⟩

/-- Claim C3: `farr1984_ss` fails with a lookup error carrying the offending
age exactly when the age is not an integer in `[10, 150]`; the error is the
function's result (it is not replaced by a default). -/
theorem farr1984_ss_error_iff (height bh_age : ℚ) :
    farr1984_ss height bh_age = .error bh_age ↔
      ¬ ∃ n : ℤ, 10 ≤ n ∧ n ≤ 150 ∧ bh_age = (n : ℚ) := by
  rw [← mem_ageKeys, ← farr_map_fst]
  cases hfind : farrTable.find? (fun p => decide (p.1 = bh_age)) with
  | none =>
    have hlook : farrLookup bh_age = none := by
      unfold farrLookup; rw [hfind]; rfl
    have hval : farr1984_ss height bh_age = .error bh_age := by
      unfold farr1984_ss; rw [hlook]
    refine iff_of_true hval ?_
    rw [List.mem_map]
    rintro ⟨p, hp, hpt⟩
    exact (List.find?_eq_none.mp hfind p hp) (by simpa using hpt)
  | some p =>
    obtain ⟨pk, pa, pb⟩ := p
    have hkey : pk = bh_age := by simpa using List.find?_some hfind
    subst hkey
    have hlook : farrLookup pk = some (pa, pb) := by
      unfold farrLookup; rw [hfind]; rfl
    have hok : farr1984_ss height pk = .ok (4.5 + pa + pb * (height - 4.5)) := by
      unfold farr1984_ss; rw [hlook]
    refine iff_of_false ?_ ?_
    · rw [hok]; simp
    · intro hn
      exact hn (List.mem_map.mpr ⟨(pk, pa, pb), List.mem_of_find?_eq_some hfind, rfl⟩)

/-- Claim C4: the coefficient table has exactly one row for every integer
age in `[10, 150]` and none for any other age, and a successful lookup
yields `4.5 + a2 + b2 * (height - 4.5)` computed from the pair found for
that exact age. -/
theorem farr1984_table_exact :
    (∀ n : ℤ, 10 ≤ n → n ≤ 150 →
        (farrTable.filter (fun p => decide (p.1 = (n : ℚ)))).length = 1) ∧
    (∀ t : ℚ, (¬ ∃ n : ℤ, 10 ≤ n ∧ n ≤ 150 ∧ t = (n : ℚ)) →
        (farrTable.filter (fun p => decide (p.1 = t))).length = 0) ∧
    (∀ height bh_age a2 b2 : ℚ, farrLookup bh_age = some (a2, b2) →
        farr1984_ss height bh_age = Except.ok (4.5 + a2 + b2 * (height - 4.5))) := by
  refine ⟨?_, ?_, ?_⟩
  · intro n h1 h2
    rw [farr_filter_len, if_pos ((mem_ageKeys _).mpr ⟨n, h1, h2, rfl⟩)]
  · intro t hn
    rw [farr_filter_len, if_neg (fun hm => hn ((mem_ageKeys t).mp hm))]
  · intro height bh_age a2 b2 hl
    unfold farr1984_ss
    rw [hl]

/-- Witness for claim C4: age 50 has exactly one row, age 9 has none, and
the lookup formula at age 50 with height 10. -/
theorem farr1984_table_exact_witness :
    (farrTable.filter (fun p => decide (p.1 = ((50 : ℤ) : ℚ)))).length = 1 ∧
    (farrTable.filter (fun p => decide (p.1 = (9 : ℚ)))).length = 0 ∧
    farr1984_ss 10 50 = Except.ok (4.5 + 0 + 1 * (10 - 4.5)) :=
  ⟨farr1984_table_exact.1 50 (by norm_num) (by norm_num),
   farr1984_table_exact.2.1 9 (by
     rintro ⟨n, h10, h150, hq⟩
     have : n = 9 := by exact_mod_cast hq.symm
     omega),
   farr1984_table_exact.2.2 10 50 0 1 (by decide)⟩

/-- Claim C5: `king1966_df` computes `4.5 + 2500 / (bh_age^2 / d1 / d2)`
with exactly the division nesting and operator precedence the specification
gives, for every real input. -/
theorem king1966_df_matches_spec (height bh_age : ℝ) :
    king1966_df height bh_age = king1966_spec height bh_age := rfl

/-- Claim C6: `curtis1974_df` is piecewise on the age: for `bh_age ≤ 100` it uses
the quadratic/septic low-age coefficients, for `bh_age > 100` the
exponential/log10 high-age coefficients, and in both branches returns
`a + b * (height - 4.5) + 4.5`; at `bh_age = 100` exactly the low branch is
taken and `a = 0`, `b = 1`, so the value is `0 + 1 * (height - 4.5) + 4.5`. -/
theorem curtis1974_df_piecewise :
    (∀ height bh_age : ℝ,
        curtis1974_df height bh_age = curtis1974_spec height bh_age) ∧
    (∀ height : ℝ,
        curtis1974_df height 100 = 0 + 1 * (height - 4.5) + 4.5) := by
  constructor
  · intro height bh_age
    by_cases hc : bh_age ≤ 100 <;>
      simp [curtis1974_df, curtis1974_spec, hc]
  · intro height
    have hc : (100 : ℝ) ≤ 100 := le_refl _
    simp only [curtis1974_df, if_pos hc]
    norm_num

/-- Claim C7: `cochran1979_gf` computes the two log-polynomial terms `x1`, `x2`
from `ln(bh_age)` with the exact published coefficients (exponents up to 24,
smallest coefficient `1.187e-18`) and returns
`(height - 4.5) * e^x1 - e^x1 * e^x2 + 89.43`. -/
theorem cochran1979_gf_formula (height bh_age : ℝ) :
    cochran1979_gf height bh_age =
      (height - 4.5) * Real.exp (cochran_x1 bh_age) -
        Real.exp (cochran_x1 bh_age) * Real.exp (cochran_x2 bh_age) + 89.43 ∧
    cochran_x1 bh_age =
      3.8886 - 1.8017 * Real.log bh_age + 0.2105 * Real.log bh_age ^ 2 -
        0.0000002885 * Real.log bh_age ^ 9 +
        0.000000000000000001187 * Real.log bh_age ^ 24 ∧
    cochran_x2 bh_age =
      -0.30935 + 1.2383 * Real.log bh_age + 0.001762 * Real.log bh_age ^ 4 -
        0.0000054 * Real.log bh_age ^ 9 +
        0.0000002046 * Real.log bh_age ^ 11 -
        0.000000000000404 * Real.log bh_age ^ 18 :=
  ⟨rfl, rfl, rfl⟩

/-- Claim C8: `harrington1986_ra` first corrects the age to `age = bh_age + 1`,
computes the cubic coefficient `a(age)` and the inverse-cubic coefficient
`b(age)`, and returns `a + b * height`; in particular at `height = 60`,
`bh_age = 20` it evaluates the polynomials at age 21 and returns
`a(21) + b(21) * 60`. -/
theorem harrington1986_ra_formula :
    (∀ height bh_age : ℝ,
        harrington1986_ra height bh_age =
          harrington_a (bh_age + 1) + harrington_b (bh_age + 1) * height) ∧
    harrington1986_ra 60 20 = harrington_a 21 + harrington_b 21 * 60 := by
  refine ⟨fun height bh_age => rfl, ?_⟩
  norm_num [harrington1986_ra]

/-- Claim C9: every one of the six functions is deterministic: two calls
with equal `(height, bh_age)` inputs give equal results, with no hidden
state (each embedded function reads only its arguments and the fixed
table). -/
theorem all_deterministic (h1 t1 h2 t2 : ℝ) (q1 r1 q2 r2 : ℚ)
    (hh : h1 = h2) (ht : t1 = t2) (hq : q1 = q2) (hr : r1 = r2) :
    king1966_df h1 t1 = king1966_df h2 t2 ∧
    cochran1979_gf h1 t1 = cochran1979_gf h2 t2 ∧
    wiley1978_wh h1 t1 = wiley1978_wh h2 t2 ∧
    harrington1986_ra h1 t1 = harrington1986_ra h2 t2 ∧
    curtis1974_df h1 t1 = curtis1974_df h2 t2 ∧
    farr1984_ss q1 r1 = farr1984_ss q2 r2 := by
  subst hh; subst ht; subst hq; subst hr
  exact ⟨rfl, rfl, rfl, rfl, rfl, rfl⟩

/-- Witness for claim C9, at `(100, 50)` for the real-valued functions and
`(10, 50)` for the table-lookup function. -/
theorem all_deterministic_witness :
    king1966_df 100 50 = king1966_df 100 50 ∧
    cochran1979_gf 100 50 = cochran1979_gf 100 50 ∧
    wiley1978_wh 100 50 = wiley1978_wh 100 50 ∧
    harrington1986_ra 100 50 = harrington1986_ra 100 50 ∧
    curtis1974_df 100 50 = curtis1974_df 100 50 ∧
    farr1984_ss 10 50 = farr1984_ss 10 50 :=
  all_deterministic 100 50 100 50 10 50 10 50 rfl rfl rfl rfl

/-- Claim C10: at the reference age 50 the table entry is `(a2, b2) = (0, 1)`
and `farr1984_ss` is the identity on the height:
`4.5 + 0 + 1 * (height - 4.5) = height` exactly. -/
theorem farr1984_ss_identity_at_50 (height : ℚ) :
    farr1984_ss height 50 = .ok height := by
  have h50 : farrLookup 50 = some (0, 1) := by decide
  unfold farr1984_ss
  rw [h50]
  exact congrArg Except.ok (by ring)

end SiteIndex
